import Mathlib

/-!
Shallow embedding of the vcenter_lifecycle package (client.py, downloads.py).

HTTP traffic is modelled as a trace of outbound requests together with an
environment function giving the appliance response to each request, indexed
by the number of requests already issued (the code is straight-line, so this
captures any remote behaviour, including state that changes between calls).
JSON bodies are modelled by the inductive type Value; Python dicts become
ordered association lists, preserving insertion order. Python ints are
unbounded, so they are modelled by Int. Raised exceptions (ValueError from
dataclass validation, HTTP errors from raise_for_status, AttributeError from
calling .get on a non-dict) become an Except error channel.
-/

/-- JSON-like values as produced by resp.json() and sent as request bodies. -/
inductive Value where
  | bool (b : Bool)
  | int (n : Int)
  | str (s : String)
  | list (xs : List Value)
  | obj (fields : List (String × Value))

/-- Outbound HTTP requests. Paths are relative to the client base_url. -/
inductive Request where
  | get (path : String)
  | put (path : String) (body : Value)
  | post (path : String) (body : Value)
  | delete (path : String)

/-- Raw response of the appliance to one request. -/
inductive HttpResult where
  | ok (body : Value)
  | err (status : Nat) (body : Value)

/-- Python exceptions that can propagate out of the embedded functions. -/
inductive Err where
  | http (status : Nat) (body : Value)
  | attr
  | value (msg : String)

/-- The remote appliance: response as a function of how many requests were
already issued on the session and of the request itself. -/
abbrev Env := Nat → Request → HttpResult

-- vSphere REST API paths (downloads.py lines 21-23)
def UPDATE_POLICY_PATH : String := "/api/appliance/update/policy"
def DEPOT_ONLINE_PATH : String := "/api/vcenter/lcm/discovery/product-catalog"
def DEPOT_CONTENT_PATH : String := "/api/content/subscribed-library"

/-- client.get: issues a GET and raises (Except.error) on non-2xx. -/
def clientGet (env : Env) (tr : List Request) (path : String) :
    List Request × Except Err Value :=
  let tr1 := tr ++ [Request.get path]
  match env tr.length (Request.get path) with
  | .ok body => (tr1, .ok body)
  | .err s b => (tr1, .error (.http s b))

/-- client.put: issues a PUT and raises on non-2xx. -/
def clientPut (env : Env) (tr : List Request) (path : String) (body : Value) :
    List Request × Except Err Value :=
  let tr1 := tr ++ [Request.put path body]
  match env tr.length (Request.put path body) with
  | .ok b => (tr1, .ok b)
  | .err s b => (tr1, .error (.http s b))

/-- ProxySettings dataclass (downloads.py lines 26-44). -/
structure ProxySettings where
  enabled : Bool := false
  server : String := ""
  port : Int := 80
  username : String := ""
  password : String := ""

def ProxySettings.default : ProxySettings := {}

/-- ProxySettings.to_dict: the enabled flag always; server and port when
enabled; credentials only when the username is truthy (non-empty). -/
def ProxySettings.to_dict (p : ProxySettings) : List (String × Value) :=
  [("enabled", Value.bool p.enabled)] ++
    (if p.enabled then
      [("server", Value.str p.server), ("port", Value.int p.port)] ++
        (if p.username ≠ "" then
          [("username", Value.str p.username), ("password", Value.str p.password)]
        else [])
    else [])

/-- DownloadSchedule dataclass fields (downloads.py lines 47-77).
Validation lives in DownloadSchedule.make, mirroring the __post_init__ that
runs at every construction. -/
structure DownloadSchedule where
  enabled : Bool := true
  day : String := "EVERYDAY"
  hour : Int := 2
  minute : Int := 0

def DownloadSchedule.default : DownloadSchedule := {}

/-- The _VALID_DAYS set, in source order. -/
def VALID_DAYS : List String :=
  ["EVERYDAY", "MONDAY", "TUESDAY", "WEDNESDAY",
   "THURSDAY", "FRIDAY", "SATURDAY", "SUNDAY"]

def dayErrMsg (day : String) : String :=
  "Invalid day " ++ day ++ ". Must be one of " ++ toString VALID_DAYS

def hourErrMsg (hour : Int) : String :=
  "hour must be 0-23, got " ++ toString hour

def minuteErrMsg (minute : Int) : String :=
  "minute must be 0-59, got " ++ toString minute

/-- DownloadSchedule construction, including __post_init__ validation:
day must be in _VALID_DAYS, hour in 0..23, minute in 0..59, checked in that
order; a failure raises ValueError naming the field. -/
def DownloadSchedule.make (enabled : Bool) (day : String) (hour minute : Int) :
    Except Err DownloadSchedule :=
  if day ∉ VALID_DAYS then
    .error (.value (dayErrMsg day))
  else if ¬ (0 ≤ hour ∧ hour ≤ 23) then
    .error (.value (hourErrMsg hour))
  else if ¬ (0 ≤ minute ∧ minute ≤ 59) then
    .error (.value (minuteErrMsg minute))
  else
    .ok { enabled := enabled, day := day, hour := hour, minute := minute }

/-- DownloadSchedule.to_dict: the four fields in insertion order. -/
def DownloadSchedule.to_dict (s : DownloadSchedule) : List (String × Value) :=
  [("enabled", Value.bool s.enabled), ("day", Value.str s.day),
   ("hour", Value.int s.hour), ("minute", Value.int s.minute)]

/-- DownloadSource dataclass fields (downloads.py lines 80-96). -/
structure DownloadSource where
  source_type : String := "INTERNET"
  umds_url : String := ""

def DownloadSource.default : DownloadSource := {}

def sourceErrMsg (t : String) : String :=
  "source_type must be INTERNET or UMDS, got " ++ t

/-- DownloadSource construction with its __post_init__ validation: the
source_type must be INTERNET or UMDS; the URL is never validated. -/
def DownloadSource.make (source_type umds_url : String) :
    Except Err DownloadSource :=
  if ¬ (source_type = "INTERNET" ∨ source_type = "UMDS") then
    .error (.value (sourceErrMsg source_type))
  else
    .ok { source_type := source_type, umds_url := umds_url }

/-- DownloadSettings aggregate (downloads.py lines 99-107). The
auto_download_enabled field is typed bool in the source but the dataclass
does not enforce it, and set_proxy and friends assign it the raw JSON value
current.get with a default, so it is modelled as a Value. -/
structure DownloadSettings where
  auto_check_enabled : Bool := true
  auto_download_enabled : Value := Value.bool true
  schedule : DownloadSchedule := DownloadSchedule.default
  source : DownloadSource := DownloadSource.default
  proxy : ProxySettings := ProxySettings.default

/-- The wire policy document built by configure_download_settings
(downloads.py lines 133-142): base dict, then the proxy key appended only
when the proxy is enabled. -/
def buildPolicy (s : DownloadSettings) : List (String × Value) :=
  [("custom_URL", Value.str ""),
   ("auto_stage", s.auto_download_enabled),
   ("check_schedule", Value.list [Value.obj s.schedule.to_dict]),
   ("username", Value.str ""),
   ("password", Value.str "")] ++
    (if s.proxy.enabled then [("proxy", Value.obj s.proxy.to_dict)] else [])

/-- The UMDS depot creation spec (downloads.py lines 242-255). -/
def umdsSpec (depot_url : String) : Value :=
  Value.obj [("create_spec", Value.obj
    [("name", Value.str "UMDS Patch Depot"),
     ("description", Value.str "Local UMDS depot for Lifecycle Manager patches"),
     ("type", Value.str "SUBSCRIBED"),
     ("subscription_info", Value.obj
       [("subscription_url", Value.str depot_url),
        ("authentication_method", Value.str "NONE"),
        ("automatic_sync_enabled", Value.bool true),
        ("on_demand", Value.bool false)]),
     ("storage_backings", Value.list [])])]

/-- _register_umds_depot (downloads.py lines 240-263): POSTs the spec; the
whole call sits in a try/except that swallows every exception, so the
response never influences program state and only the request is observable. -/
def register_umds_depot (tr : List Request) (depot_url : String) :
    List Request :=
  tr ++ [Request.post DEPOT_CONTENT_PATH (umdsSpec depot_url)]

/-- get_download_settings (downloads.py lines 114-117): one GET of the
update-policy resource, returning resp.json() verbatim. -/
def get_download_settings (env : Env) (tr : List Request) :
    List Request × Except Err Value :=
  clientGet env tr UPDATE_POLICY_PATH

/-- configure_download_settings (downloads.py lines 120-150): PUT the built
policy, best-effort-register the UMDS depot when source_type is UMDS and the
URL is truthy, then re-read and return the policy. -/
def configure_download_settings (env : Env) (tr : List Request)
    (s : DownloadSettings) : List Request × Except Err Value :=
  match clientPut env tr UPDATE_POLICY_PATH (Value.obj (buildPolicy s)) with
  | (tr1, .error e) => (tr1, .error e)
  | (tr1, .ok _) =>
    let tr2 := if s.source.source_type = "UMDS" ∧ s.source.umds_url ≠ ""
      then register_umds_depot tr1 s.source.umds_url else tr1
    get_download_settings env tr2

/-- enable_auto_download (downloads.py lines 153-155). -/
def enable_auto_download (env : Env) (tr : List Request) :
    List Request × Except Err Value :=
  configure_download_settings env tr {}

/-- The settings value disable_auto_download constructs (downloads.py lines
160-164). The literal DownloadSchedule(enabled=False) construction passes
validation (default day, hour, minute), so it is written as a record
literal. -/
def disable_settings : DownloadSettings :=
  { auto_check_enabled := false,
    auto_download_enabled := Value.bool false,
    schedule := { enabled := false, day := "EVERYDAY", hour := 2, minute := 0 },
    source := DownloadSource.default,
    proxy := ProxySettings.default }

/-- disable_auto_download (downloads.py lines 158-165). -/
def disable_auto_download (env : Env) (tr : List Request) :
    List Request × Except Err Value :=
  configure_download_settings env tr disable_settings

/-- Requests that mutate remote state. -/
def Request.isWrite : Request → Bool
  | .put _ _ => true
  | .post _ _ => true
  | .delete _ => true
  | .get _ => false

/-- Python dict.get with a default: succeeds on a dict (first matching key),
raises AttributeError on any other JSON value. -/
def pyDictGet (v : Value) (k : String) (d : Value) : Except Err Value :=
  match v with
  | .obj fs => .ok ((fs.lookup k).getD d)
  | _ => .error .attr

/-- set_download_schedule (downloads.py lines 168-182): read current policy,
merge forward only auto_stage, construct a fresh settings value with the new
schedule, everything else default. -/
def set_download_schedule (env : Env) (tr : List Request)
    (day : String) (hour minute : Int) : List Request × Except Err Value :=
  match get_download_settings env tr with
  | (tr1, .error e) => (tr1, .error e)
  | (tr1, .ok current) =>
    match pyDictGet current "auto_stage" (Value.bool true) with
    | .error e => (tr1, .error e)
    | .ok autoDl =>
      match DownloadSchedule.make true day hour minute with
      | .error e => (tr1, .error e)
      | .ok sched =>
        configure_download_settings env tr1
          { auto_check_enabled := true,
            auto_download_enabled := autoDl,
            schedule := sched,
            source := DownloadSource.default,
            proxy := ProxySettings.default }

/-- set_proxy (downloads.py lines 185-206). -/
def set_proxy (env : Env) (tr : List Request)
    (server : String) (port : Int) (username password : String) :
    List Request × Except Err Value :=
  match get_download_settings env tr with
  | (tr1, .error e) => (tr1, .error e)
  | (tr1, .ok current) =>
    match pyDictGet current "auto_stage" (Value.bool true) with
    | .error e => (tr1, .error e)
    | .ok autoDl =>
      configure_download_settings env tr1
        { auto_check_enabled := true,
          auto_download_enabled := autoDl,
          schedule := DownloadSchedule.default,
          source := DownloadSource.default,
          proxy := { enabled := true, server := server, port := port,
                     username := username, password := password } }

/-- clear_proxy (downloads.py lines 209-217). -/
def clear_proxy (env : Env) (tr : List Request) :
    List Request × Except Err Value :=
  match get_download_settings env tr with
  | (tr1, .error e) => (tr1, .error e)
  | (tr1, .ok current) =>
    match pyDictGet current "auto_stage" (Value.bool true) with
    | .error e => (tr1, .error e)
    | .ok autoDl =>
      configure_download_settings env tr1
        { auto_check_enabled := true,
          auto_download_enabled := autoDl,
          schedule := DownloadSchedule.default,
          source := DownloadSource.default,
          proxy := { enabled := false, server := "", port := 80,
                     username := "", password := "" } }

/-- set_download_source (downloads.py lines 220-233). -/
def set_download_source (env : Env) (tr : List Request)
    (source_type umds_url : String) : List Request × Except Err Value :=
  match get_download_settings env tr with
  | (tr1, .error e) => (tr1, .error e)
  | (tr1, .ok current) =>
    match pyDictGet current "auto_stage" (Value.bool true) with
    | .error e => (tr1, .error e)
    | .ok autoDl =>
      match DownloadSource.make source_type umds_url with
      | .error e => (tr1, .error e)
      | .ok src =>
        configure_download_settings env tr1
          { auto_check_enabled := true,
            auto_download_enabled := autoDl,
            schedule := DownloadSchedule.default,
            source := src,
            proxy := ProxySettings.default }

/-- Navigate the UMDS spec to create_spec.subscription_info.subscription_url. -/
def Value.getKey : Value → String → Option Value
  | .obj fs, k => fs.lookup k
  | _, _ => none

def subscription_url_of (v : Value) : Option Value :=
  match v.getKey "create_spec" with
  | some cs =>
    match cs.getKey "subscription_info" with
    | some si => si.getKey "subscription_url"
    | none => none
  | none => none

/-- VCenterClient state touched by logout (client.py): the base URL and the
stored session id (None before login). Credentials and the requests session
object are never read or written by logout and are omitted. -/
structure VCenterClientState where
  base_url : String
  session_id : Option String

/-- Python truthiness of self session id: active when not None and
non-empty. -/
def sessionActive : Option String → Bool
  | none => false
  | some s => s ≠ ""

/-- VCenterClient.logout (client.py lines 29-34): if a session id is truthy,
DELETE the session endpoint (response ignored, no raise_for_status) and clear
the stored id; otherwise do nothing. -/
def logout (st : VCenterClientState) (tr : List Request) :
    VCenterClientState × List Request :=
  if sessionActive st.session_id then
    ({ st with session_id := none }, tr ++ [Request.delete "/api/session"])
  else
    (st, tr)

/-!
Helper lemmas shared by the claim theorems.
-/

theorem clientGet_ok (env : Env) (tr : List Request) (path : String) (b : Value)
    (h : env tr.length (Request.get path) = .ok b) :
    clientGet env tr path = (tr ++ [Request.get path], .ok b) := by
  simp [clientGet, h]

theorem clientGet_err (env : Env) (tr : List Request) (path : String)
    (st : Nat) (b : Value)
    (h : env tr.length (Request.get path) = .err st b) :
    clientGet env tr path = (tr ++ [Request.get path], .error (.http st b)) := by
  simp [clientGet, h]

theorem clientPut_ok (env : Env) (tr : List Request) (path : String)
    (body b : Value) (h : env tr.length (Request.put path body) = .ok b) :
    clientPut env tr path body = (tr ++ [Request.put path body], .ok b) := by
  simp [clientPut, h]

theorem clientPut_err (env : Env) (tr : List Request) (path : String)
    (body : Value) (st : Nat) (b : Value)
    (h : env tr.length (Request.put path body) = .err st b) :
    clientPut env tr path body = (tr ++ [Request.put path body], .error (.http st b)) := by
  simp [clientPut, h]

/-- Whatever the environment answers, the first request that
configure_download_settings issues is the PUT of the built policy. -/
theorem configure_trace_shape (env : Env) (tr : List Request)
    (s : DownloadSettings) :
    ∃ rest, (configure_download_settings env tr s).1 =
      tr ++ Request.put UPDATE_POLICY_PATH (Value.obj (buildPolicy s)) :: rest := by
  cases henv : env tr.length (Request.put UPDATE_POLICY_PATH (Value.obj (buildPolicy s))) with
  | ok b =>
    refine ⟨(if s.source.source_type = "UMDS" ∧ s.source.umds_url ≠ "" then
        [Request.post DEPOT_CONTENT_PATH (umdsSpec s.source.umds_url)] else []) ++
        [Request.get UPDATE_POLICY_PATH], ?_⟩
    simp only [configure_download_settings, clientPut_ok env tr _ _ b henv,
      register_umds_depot, get_download_settings, clientGet]
    split
    · split <;> simp
    · split <;> simp
  | err st b =>
    exact ⟨[], by simp [configure_download_settings, clientPut_err env tr _ _ st b henv]⟩

/-- C4: ProxySettings.to_dict yields exactly the key set the claim lists in
each of the three cases: only enabled when disabled; enabled, server, port
when enabled with empty username; all five keys when enabled with a
non-empty username. -/
theorem proxy_to_dict_shape (p : ProxySettings) :
    p.to_dict =
      if p.enabled then
        if p.username = "" then
          [("enabled", Value.bool true), ("server", Value.str p.server),
           ("port", Value.int p.port)]
        else
          [("enabled", Value.bool true), ("server", Value.str p.server),
           ("port", Value.int p.port), ("username", Value.str p.username),
           ("password", Value.str p.password)]
      else [("enabled", Value.bool false)] := by
  rcases p with ⟨e, sv, pt, u, pw⟩
  cases e <;> by_cases hu : u = "" <;> simp [ProxySettings.to_dict, hu]

/-- C2: the policy document configure_download_settings writes is the PUT
body buildPolicy s, whose auto_stage equals s.auto_download_enabled, whose
check_schedule is the single-element list [schedule.to_dict], whose
custom_URL, username and password are empty strings, and which carries a
proxy key (equal to proxy.to_dict) exactly when the proxy is enabled. -/
theorem configure_policy_document (env : Env) (s : DownloadSettings) :
    (∃ rest, (configure_download_settings env [] s).1 =
        Request.put UPDATE_POLICY_PATH (Value.obj (buildPolicy s)) :: rest)
    ∧ (buildPolicy s).lookup "auto_stage" = some s.auto_download_enabled
    ∧ (buildPolicy s).lookup "check_schedule" =
        some (Value.list [Value.obj s.schedule.to_dict])
    ∧ (buildPolicy s).lookup "custom_URL" = some (Value.str "")
    ∧ (buildPolicy s).lookup "username" = some (Value.str "")
    ∧ (buildPolicy s).lookup "password" = some (Value.str "")
    ∧ (buildPolicy s).lookup "proxy" =
        (if s.proxy.enabled then some (Value.obj s.proxy.to_dict) else none) := by
  constructor
  · obtain ⟨rest, h⟩ := configure_trace_shape env [] s
    exact ⟨rest, by simpa using h⟩
  · cases hp : s.proxy.enabled <;> simp [buildPolicy, hp, List.lookup]

/-- C7: auto_check_enabled never influences configure_download_settings:
two settings values differing only in that field produce the identical
request trace and the identical result, and the policy document carries no
auto_check_enabled key. -/
theorem configure_ignores_auto_check_enabled (env : Env) (tr : List Request)
    (s : DownloadSettings) (b : Bool) :
    configure_download_settings env tr { s with auto_check_enabled := b } =
      configure_download_settings env tr s
    ∧ (buildPolicy s).lookup "auto_check_enabled" = none := by
  constructor
  · rfl
  · cases hp : s.proxy.enabled <;> simp [buildPolicy, hp, List.lookup]

/-- Shared helper: DownloadSchedule.make succeeds on valid input. -/
theorem schedule_make_valid_ok (en : Bool) (day : String) (hour minute : Int)
    (hd : day ∈ VALID_DAYS) (hh : 0 ≤ hour ∧ hour ≤ 23)
    (hm : 0 ≤ minute ∧ minute ≤ 59) :
    DownloadSchedule.make en day hour minute =
      .ok { enabled := en, day := day, hour := hour, minute := minute } := by
  simp [DownloadSchedule.make, hd, hh, hm]

/-- Shared helper: DownloadSource.make succeeds on a valid source_type. -/
theorem source_make_valid_ok (t u : String)
    (ht : t = "INTERNET" ∨ t = "UMDS") :
    DownloadSource.make t u = .ok { source_type := t, umds_url := u } := by
  simp [DownloadSource.make, ht]

/-- C5 counterexample: the valid-day enumeration of DownloadSchedule holds
eight distinct values (EVERYDAY plus the seven weekdays), not nine as the
claim counts them. -/
theorem valid_days_are_eight_not_nine :
    VALID_DAYS.length = 8 ∧ VALID_DAYS.Nodup ∧ ¬ VALID_DAYS.length = 9 := by
  refine ⟨rfl, by decide, by decide⟩

/-- C5 (amended: the day enumeration has eight values, not nine):
DownloadSchedule construction succeeds exactly when day is one of the eight
enumerated values, hour lies in 0..23 and minute in 0..59; a successful
construction round-trips through to_dict into exactly the four fields with
the constructed values; a failed construction raises ValueError whose
message names the first offending field, checked in the order day, hour,
minute. -/
theorem schedule_make_spec (en : Bool) (day : String) (hour minute : Int) :
    ((∃ s, DownloadSchedule.make en day hour minute = .ok s) ↔
      (day ∈ VALID_DAYS ∧ (0 ≤ hour ∧ hour ≤ 23) ∧ (0 ≤ minute ∧ minute ≤ 59)))
    ∧ (day ∈ VALID_DAYS → (0 ≤ hour ∧ hour ≤ 23) → (0 ≤ minute ∧ minute ≤ 59) →
        DownloadSchedule.make en day hour minute =
          .ok { enabled := en, day := day, hour := hour, minute := minute } ∧
        DownloadSchedule.to_dict
            { enabled := en, day := day, hour := hour, minute := minute } =
          [("enabled", Value.bool en), ("day", Value.str day),
           ("hour", Value.int hour), ("minute", Value.int minute)])
    ∧ (day ∉ VALID_DAYS →
        DownloadSchedule.make en day hour minute = .error (.value (dayErrMsg day)))
    ∧ (day ∈ VALID_DAYS → ¬ (0 ≤ hour ∧ hour ≤ 23) →
        DownloadSchedule.make en day hour minute = .error (.value (hourErrMsg hour)))
    ∧ (day ∈ VALID_DAYS → (0 ≤ hour ∧ hour ≤ 23) → ¬ (0 ≤ minute ∧ minute ≤ 59) →
        DownloadSchedule.make en day hour minute = .error (.value (minuteErrMsg minute))) := by
  by_cases hd : day ∈ VALID_DAYS <;> by_cases hh : 0 ≤ hour ∧ hour ≤ 23 <;>
    by_cases hm : 0 ≤ minute ∧ minute ≤ 59 <;>
    simp [DownloadSchedule.make, DownloadSchedule.to_dict, hd, hh, hm]

/-- C5 witness: concrete valid and invalid constructions. -/
theorem schedule_make_spec_witness :
    DownloadSchedule.make true "MONDAY" 3 30 =
      .ok { enabled := true, day := "MONDAY", hour := 3, minute := 30 } ∧
    DownloadSchedule.make true "FUNDAY" 2 0 = .error (.value (dayErrMsg "FUNDAY")) ∧
    DownloadSchedule.make false "EVERYDAY" 24 0 = .error (.value (hourErrMsg 24)) :=
  ⟨((schedule_make_spec true "MONDAY" 3 30).2.1 (by decide) (by decide) (by decide)).1,
   (schedule_make_spec true "FUNDAY" 2 0).2.2.1 (by decide),
   (schedule_make_spec false "EVERYDAY" 24 0).2.2.2.1 (by decide) (by decide)⟩

/-- C8: DownloadSource construction fails with a ValueError naming
source_type for every source_type outside INTERNET and UMDS, and succeeds
for every umds_url string, the empty string included, whenever source_type
is one of the two enum values; the URL is never validated. -/
theorem download_source_make_spec (t u : String) :
    ((∃ s, DownloadSource.make t u = .ok s) ↔ (t = "INTERNET" ∨ t = "UMDS"))
    ∧ ((t = "INTERNET" ∨ t = "UMDS") →
        DownloadSource.make t u = .ok { source_type := t, umds_url := u })
    ∧ (¬ (t = "INTERNET" ∨ t = "UMDS") →
        DownloadSource.make t u = .error (.value (sourceErrMsg t))) := by
  by_cases h : t = "INTERNET" ∨ t = "UMDS" <;>
    simp [DownloadSource.make, h]

/-- C8 witness: UMDS with an empty URL constructs; FTP is rejected. -/
theorem download_source_make_spec_witness :
    DownloadSource.make "UMDS" "" = .ok { source_type := "UMDS", umds_url := "" } ∧
    DownloadSource.make "FTP" "x" = .error (.value (sourceErrMsg "FTP")) :=
  ⟨(download_source_make_spec "UMDS" "").2.1 (Or.inr rfl),
   (download_source_make_spec "FTP" "x").2.2 (by decide)⟩

/-- C9: get_download_settings issues exactly one GET of the update-policy
resource (the trace grows by that single request, so no write is performed)
and returns the response body verbatim. -/
theorem get_download_settings_spec (env : Env) (tr : List Request) (v : Value)
    (h : env tr.length (Request.get UPDATE_POLICY_PATH) = .ok v) :
    get_download_settings env tr = (tr ++ [Request.get UPDATE_POLICY_PATH], .ok v) := by
  simp [get_download_settings, clientGet_ok env tr _ v h]

/-- C9 witness: a concrete environment and body. -/
theorem get_download_settings_spec_witness :
    get_download_settings (fun _ _ => HttpResult.ok (Value.str "policy")) [] =
      ([Request.get UPDATE_POLICY_PATH], .ok (Value.str "policy")) :=
  get_download_settings_spec (fun _ _ => HttpResult.ok (Value.str "policy")) []
    (Value.str "policy") rfl

/-- C6: disable_auto_download performs no read first: whatever the remote
state, its first request is the policy PUT built from a settings value with
auto_check_enabled false, auto_download_enabled false, the schedule disabled
with its other fields default, and source and proxy at construction
defaults; the written document has auto_stage false and no proxy key, and
the whole interaction contains exactly one write. -/
theorem disable_auto_download_spec (env : Env) :
    disable_settings =
      { auto_check_enabled := false,
        auto_download_enabled := Value.bool false,
        schedule := { enabled := false, day := "EVERYDAY", hour := 2, minute := 0 },
        source := { source_type := "INTERNET", umds_url := "" },
        proxy := { enabled := false, server := "", port := 80,
                   username := "", password := "" } }
    ∧ (∃ rest, (disable_auto_download env []).1 =
        Request.put UPDATE_POLICY_PATH (Value.obj (buildPolicy disable_settings)) :: rest)
    ∧ (buildPolicy disable_settings).lookup "auto_stage" = some (Value.bool false)
    ∧ (buildPolicy disable_settings).lookup "proxy" = none
    ∧ (disable_auto_download env []).1.countP Request.isWrite = 1 := by
  refine ⟨rfl, ?_, by simp [buildPolicy, disable_settings, List.lookup],
    by simp [buildPolicy, disable_settings, List.lookup], ?_⟩
  · obtain ⟨rest, h⟩ := configure_trace_shape env [] disable_settings
    exact ⟨rest, by simpa using h⟩
  · have hc : ¬ (disable_settings.source.source_type = "UMDS" ∧
        disable_settings.source.umds_url ≠ "") := by decide
    cases henv : env 0 (Request.put UPDATE_POLICY_PATH (Value.obj (buildPolicy disable_settings))) with
    | ok b =>
      have h := clientPut_ok env [] UPDATE_POLICY_PATH
        (Value.obj (buildPolicy disable_settings)) b henv
      simp only [disable_auto_download, configure_download_settings, h, hc, if_false,
        get_download_settings, clientGet, List.nil_append]
      split <;> simp [Request.isWrite]
    | err st b =>
      have h := clientPut_err env [] UPDATE_POLICY_PATH
        (Value.obj (buildPolicy disable_settings)) st b henv
      simp [disable_auto_download, configure_download_settings, h, Request.isWrite]

/-- C10: logout is a no-op on an inactive session (no request issued, state
unchanged), clears the session id when one is active, and running it twice
is observationally equal to running it once. -/
theorem logout_idempotent (st : VCenterClientState) (tr : List Request) :
    (sessionActive st.session_id = false → logout st tr = (st, tr))
    ∧ (sessionActive st.session_id = true → (logout st tr).1.session_id = none)
    ∧ logout (logout st tr).1 (logout st tr).2 = logout st tr := by
  refine ⟨fun h => by simp [logout, h], fun h => by simp [logout, h], ?_⟩
  by_cases h : sessionActive st.session_id = true
  · have h1 : logout st tr =
        ({ st with session_id := none }, tr ++ [Request.delete "/api/session"]) := by
      simp [logout, h]
    rw [h1]
    simp [logout, sessionActive]
  · simp [logout, h]

/-- C3: once the policy PUT has succeeded, configure_download_settings
issues the depot-registration POST exactly once, with a creation spec whose
subscription_info.subscription_url equals settings.source.umds_url,
precisely when source_type is UMDS and umds_url is non-empty; the response
to that POST is never consulted (the source swallows every exception), so
whatever the registration outcome the operation does not raise and returns
the re-read policy. -/
theorem configure_umds_registration (env : Env) (s : DownloadSettings) (b v : Value)
    (hput : env 0 (Request.put UPDATE_POLICY_PATH (Value.obj (buildPolicy s))) = .ok b)
    (hget : env (if s.source.source_type = "UMDS" ∧ s.source.umds_url ≠ "" then 2 else 1)
        (Request.get UPDATE_POLICY_PATH) = .ok v) :
    (configure_download_settings env [] s).1 =
      Request.put UPDATE_POLICY_PATH (Value.obj (buildPolicy s)) ::
        ((if s.source.source_type = "UMDS" ∧ s.source.umds_url ≠ "" then
            [Request.post DEPOT_CONTENT_PATH (umdsSpec s.source.umds_url)] else []) ++
          [Request.get UPDATE_POLICY_PATH])
    ∧ (configure_download_settings env [] s).2 = .ok v
    ∧ subscription_url_of (umdsSpec s.source.umds_url) =
        some (Value.str s.source.umds_url) := by
  have h := clientPut_ok env [] UPDATE_POLICY_PATH (Value.obj (buildPolicy s)) b hput
  have hsub : subscription_url_of (umdsSpec s.source.umds_url) =
      some (Value.str s.source.umds_url) := by
    simp [subscription_url_of, umdsSpec, Value.getKey, List.lookup]
  by_cases hc : s.source.source_type = "UMDS" ∧ s.source.umds_url ≠ ""
  · have hget2 : env 2 (Request.get UPDATE_POLICY_PATH) = .ok v := by
      simpa [hc] using hget
    have hcl := clientGet_ok env
      [Request.put UPDATE_POLICY_PATH (Value.obj (buildPolicy s)),
       Request.post DEPOT_CONTENT_PATH (umdsSpec s.source.umds_url)]
      UPDATE_POLICY_PATH v hget2
    have e1 : configure_download_settings env [] s =
        ([Request.put UPDATE_POLICY_PATH (Value.obj (buildPolicy s)),
          Request.post DEPOT_CONTENT_PATH (umdsSpec s.source.umds_url),
          Request.get UPDATE_POLICY_PATH], .ok v) := by
      simp only [configure_download_settings, h, if_pos hc, register_umds_depot,
        get_download_settings, List.nil_append, List.cons_append, List.singleton_append]
      simpa using hcl
    rw [e1]
    exact ⟨by simp [hc], rfl, hsub⟩
  · have hget1 : env 1 (Request.get UPDATE_POLICY_PATH) = .ok v := by
      simpa [hc] using hget
    have hcl := clientGet_ok env
      [Request.put UPDATE_POLICY_PATH (Value.obj (buildPolicy s))]
      UPDATE_POLICY_PATH v hget1
    have e1 : configure_download_settings env [] s =
        ([Request.put UPDATE_POLICY_PATH (Value.obj (buildPolicy s)),
          Request.get UPDATE_POLICY_PATH], .ok v) := by
      simp only [configure_download_settings, h, if_neg hc,
        get_download_settings, List.nil_append, List.cons_append, List.singleton_append]
      simpa using hcl
    rw [e1]
    exact ⟨by simp [hc], rfl, hsub⟩

/-- C3 witness: a UMDS source with a non-empty URL against a concrete
environment (whose answer to the POST is irrelevant). -/
theorem configure_umds_registration_witness :
    (configure_download_settings (fun _ _ => HttpResult.ok (Value.obj []))
        [] { auto_check_enabled := true, auto_download_enabled := Value.bool true,
             schedule := DownloadSchedule.default,
             source := { source_type := "UMDS", umds_url := "http://depot.local" },
             proxy := ProxySettings.default }).2 = .ok (Value.obj []) :=
  (configure_umds_registration (fun _ _ => HttpResult.ok (Value.obj []))
    { auto_check_enabled := true, auto_download_enabled := Value.bool true,
      schedule := DownloadSchedule.default,
      source := { source_type := "UMDS", umds_url := "http://depot.local" },
      proxy := ProxySettings.default }
    (Value.obj []) (Value.obj []) rfl rfl).2.1

/-- C1: each convenience operation does a GET first, merges forward only the
remote auto_stage value into auto_download_enabled, and PUTs a policy built
from a settings value whose every other non-targeted field is at its
construction default; in particular the policy written by set_proxy carries
the default check_schedule entry enabled EVERYDAY 02:00 whatever schedule
the current remote state held. -/
theorem convenience_ops_merge_only_auto_stage (env : Env)
    (fs : List (String × Value)) (day : String) (hour minute : Int)
    (server : String) (port : Int) (username password : String)
    (source_type umds_url : String)
    (hcur : env 0 (Request.get UPDATE_POLICY_PATH) = .ok (Value.obj fs))
    (hday : day ∈ VALID_DAYS) (hhour : 0 ≤ hour ∧ hour ≤ 23)
    (hminute : 0 ≤ minute ∧ minute ≤ 59)
    (hsrc : source_type = "INTERNET" ∨ source_type = "UMDS") :
    (∃ rest, (set_download_schedule env [] day hour minute).1 =
      Request.get UPDATE_POLICY_PATH ::
        Request.put UPDATE_POLICY_PATH (Value.obj (buildPolicy
          { auto_check_enabled := true,
            auto_download_enabled := (fs.lookup "auto_stage").getD (Value.bool true),
            schedule := { enabled := true, day := day, hour := hour, minute := minute },
            source := DownloadSource.default,
            proxy := ProxySettings.default })) :: rest)
    ∧ (∃ rest, (set_proxy env [] server port username password).1 =
      Request.get UPDATE_POLICY_PATH ::
        Request.put UPDATE_POLICY_PATH (Value.obj (buildPolicy
          { auto_check_enabled := true,
            auto_download_enabled := (fs.lookup "auto_stage").getD (Value.bool true),
            schedule := DownloadSchedule.default,
            source := DownloadSource.default,
            proxy := { enabled := true, server := server, port := port,
                       username := username, password := password } })) :: rest)
    ∧ (∃ rest, (clear_proxy env []).1 =
      Request.get UPDATE_POLICY_PATH ::
        Request.put UPDATE_POLICY_PATH (Value.obj (buildPolicy
          { auto_check_enabled := true,
            auto_download_enabled := (fs.lookup "auto_stage").getD (Value.bool true),
            schedule := DownloadSchedule.default,
            source := DownloadSource.default,
            proxy := { enabled := false, server := "", port := 80,
                       username := "", password := "" } })) :: rest)
    ∧ (∃ rest, (set_download_source env [] source_type umds_url).1 =
      Request.get UPDATE_POLICY_PATH ::
        Request.put UPDATE_POLICY_PATH (Value.obj (buildPolicy
          { auto_check_enabled := true,
            auto_download_enabled := (fs.lookup "auto_stage").getD (Value.bool true),
            schedule := DownloadSchedule.default,
            source := { source_type := source_type, umds_url := umds_url },
            proxy := ProxySettings.default })) :: rest)
    ∧ (buildPolicy
          { auto_check_enabled := true,
            auto_download_enabled := (fs.lookup "auto_stage").getD (Value.bool true),
            schedule := DownloadSchedule.default,
            source := DownloadSource.default,
            proxy := { enabled := true, server := server, port := port,
                       username := username, password := password } }).lookup
          "check_schedule" =
        some (Value.list [Value.obj
          [("enabled", Value.bool true), ("day", Value.str "EVERYDAY"),
           ("hour", Value.int 2), ("minute", Value.int 0)]]) := by
  have hget : get_download_settings env [] =
      ([Request.get UPDATE_POLICY_PATH], .ok (Value.obj fs)) := by
    simpa [get_download_settings] using
      clientGet_ok env [] UPDATE_POLICY_PATH (Value.obj fs) hcur
  refine ⟨?_, ?_, ?_, ?_, ?_⟩
  · obtain ⟨rest, h⟩ := configure_trace_shape env [Request.get UPDATE_POLICY_PATH]
      { auto_check_enabled := true,
        auto_download_enabled := (fs.lookup "auto_stage").getD (Value.bool true),
        schedule := { enabled := true, day := day, hour := hour, minute := minute },
        source := DownloadSource.default,
        proxy := ProxySettings.default }
    refine ⟨rest, ?_⟩
    simp only [set_download_schedule, hget, pyDictGet,
      schedule_make_valid_ok true day hour minute hday hhour hminute]
    simpa using h
  · obtain ⟨rest, h⟩ := configure_trace_shape env [Request.get UPDATE_POLICY_PATH]
      { auto_check_enabled := true,
        auto_download_enabled := (fs.lookup "auto_stage").getD (Value.bool true),
        schedule := DownloadSchedule.default,
        source := DownloadSource.default,
        proxy := { enabled := true, server := server, port := port,
                   username := username, password := password } }
    refine ⟨rest, ?_⟩
    simp only [set_proxy, hget, pyDictGet]
    simpa using h
  · obtain ⟨rest, h⟩ := configure_trace_shape env [Request.get UPDATE_POLICY_PATH]
      { auto_check_enabled := true,
        auto_download_enabled := (fs.lookup "auto_stage").getD (Value.bool true),
        schedule := DownloadSchedule.default,
        source := DownloadSource.default,
        proxy := { enabled := false, server := "", port := 80,
                   username := "", password := "" } }
    refine ⟨rest, ?_⟩
    simp only [clear_proxy, hget, pyDictGet]
    simpa using h
  · obtain ⟨rest, h⟩ := configure_trace_shape env [Request.get UPDATE_POLICY_PATH]
      { auto_check_enabled := true,
        auto_download_enabled := (fs.lookup "auto_stage").getD (Value.bool true),
        schedule := DownloadSchedule.default,
        source := { source_type := source_type, umds_url := umds_url },
        proxy := ProxySettings.default }
    refine ⟨rest, ?_⟩
    simp only [set_download_source, hget, pyDictGet,
      source_make_valid_ok source_type umds_url hsrc]
    simpa using h
  · simp [buildPolicy, DownloadSchedule.default, DownloadSchedule.to_dict, List.lookup]

/-- C1 witness: concrete remote state with a non-default auto_stage and
concrete arguments for all four operations. -/
theorem convenience_ops_merge_only_auto_stage_witness :
    (buildPolicy
        { auto_check_enabled := true,
          auto_download_enabled :=
            (([("auto_stage", Value.bool false)] : List (String × Value)).lookup
              "auto_stage").getD (Value.bool true),
          schedule := DownloadSchedule.default,
          source := DownloadSource.default,
          proxy := { enabled := true, server := "proxy.corp", port := 8080,
                     username := "", password := "" } }).lookup "check_schedule" =
      some (Value.list [Value.obj
        [("enabled", Value.bool true), ("day", Value.str "EVERYDAY"),
         ("hour", Value.int 2), ("minute", Value.int 0)]]) :=
  (convenience_ops_merge_only_auto_stage
    (fun _ _ => HttpResult.ok (Value.obj [("auto_stage", Value.bool false)]))
    [("auto_stage", Value.bool false)] "MONDAY" 3 30 "proxy.corp" 8080 "" ""
    "INTERNET" "" rfl (by decide) (by decide) (by decide)
    (Or.inl rfl)).2.2.2.2

/-- C10 witness: an inactive session is left untouched; a second logout
after a real one changes nothing. -/
theorem logout_idempotent_witness :
    logout ⟨"https://vc", none⟩ [] = (⟨"https://vc", none⟩, []) ∧
    logout (logout ⟨"https://vc", some "tok"⟩ []).1
        (logout ⟨"https://vc", some "tok"⟩ []).2 =
      logout ⟨"https://vc", some "tok"⟩ [] :=
  ⟨(logout_idempotent ⟨"https://vc", none⟩ []).1 rfl,
   (logout_idempotent ⟨"https://vc", some "tok"⟩ []).2.2⟩
